import Mathlib

/-!
# Verification of the GDK attach-params window-placement solver

Shallow embedding of `src/gdk/gdkattachparams.c` (the rule-based
attach-params solver) together with the anchor-geometry primitives of the
specification.  Widths, heights and coordinates are `gint` in the source;
they are embedded as `Int` (no overflow is exercised by any claim), and
C's truncating integer division is `Int.tdiv`.

`GdkAttachRule` is a bit mask in the source (`GDK_ATTACH_AXIS_*`,
`GDK_ATTACH_RECT_*`, `GDK_ATTACH_WINDOW_*`); the enumeration header is not
part of the sources, so a rule is embedded structurally as its three
decoded components, with an `invalid` case standing for bit patterns
outside the defined set (the only property of the encoding the code uses:
each masked field either equals one of the three named constants or none
of them).
-/

/-- `GdkRectangle`: x, y, width, height. -/
structure GdkRectangle where
  x : Int
  y : Int
  width : Int
  height : Int
deriving DecidableEq, Repr

/-- `GdkBorder`: left, right, top, bottom. -/
structure GdkBorder where
  left : Int
  right : Int
  top : Int
  bottom : Int
deriving DecidableEq, Repr

/-- The `GDK_ATTACH_AXIS_*` component of a `GdkAttachRule`:
`GDK_ATTACH_AXIS_X`, `GDK_ATTACH_AXIS_Y`, or bits outside the defined set. -/
inductive AttachAxis where
  | x
  | y
  | invalid
deriving DecidableEq, Repr

/-- The `GDK_ATTACH_RECT_*` component of a `GdkAttachRule`. -/
inductive RectComp where
  | min
  | mid
  | max
  | invalid
deriving DecidableEq, Repr

/-- The `GDK_ATTACH_WINDOW_*` component of a `GdkAttachRule`. -/
inductive WindowComp where
  | min
  | mid
  | max
  | invalid
deriving DecidableEq, Repr

/-- A `GdkAttachRule`, decoded into its three masked components. -/
structure GdkAttachRule where
  axis : AttachAxis
  rect : RectComp
  window : WindowComp
deriving DecidableEq, Repr

/-- `struct _GdkAttachParams` (gdkattachparamsprivate.h).  The callback
function pointer is embedded as presence (`Bool`), the user-data pointer as
an optional context identity (`none` = `NULL`), and the destroy notify as
presence. -/
structure GdkAttachParams where
  origin_x : Int
  origin_y : Int
  has_attach_rect : Bool
  attach_rect : GdkRectangle
  attach_margin : GdkBorder
  window_margin : GdkBorder
  window_padding : GdkBorder
  offset_x : Int
  offset_y : Int
  primary_rules : List GdkAttachRule
  secondary_rules : List GdkAttachRule
  attach_callback : Bool
  attach_user_data : Option Nat
  attach_destroy_notify : Bool
deriving DecidableEq, Repr

/-- `gdk_attach_params_new`: `g_new0` zeroes every field and the rule
arrays start empty. -/
def gdk_attach_params_new : GdkAttachParams where
  origin_x := 0
  origin_y := 0
  has_attach_rect := false
  attach_rect := ⟨0, 0, 0, 0⟩
  attach_margin := ⟨0, 0, 0, 0⟩
  window_margin := ⟨0, 0, 0, 0⟩
  window_padding := ⟨0, 0, 0, 0⟩
  offset_x := 0
  offset_y := 0
  primary_rules := []
  secondary_rules := []
  attach_callback := false
  attach_user_data := none
  attach_destroy_notify := false

/-- `gdk_attach_params_set_attach_rect`: a non-NULL rectangle is stored by
value and marked valid; NULL only clears `has_attach_rect`. -/
def gdk_attach_params_set_attach_rect (params : GdkAttachParams)
    (rectangle : Option GdkRectangle) : GdkAttachParams :=
  match rectangle with
  | some r => { params with has_attach_rect := true, attach_rect := r }
  | none => { params with has_attach_rect := false }

/-- `gdk_attach_params_set_position_callback`.  Returns the updated params
together with the list of context identities released by this call (the
`destroy_notify (user_data)` invocations it performs). -/
def gdk_attach_params_set_position_callback (params : GdkAttachParams)
    (callback : Bool) (user_data : Option Nat) (destroy_notify : Bool) :
    GdkAttachParams × List Nat :=
  let params := { params with attach_callback := callback }
  if user_data ≠ params.attach_user_data then
    let released :=
      match params.attach_user_data, params.attach_destroy_notify with
      | some d, true => [d]
      | _, _ => []
    ({ params with attach_user_data := user_data,
                   attach_destroy_notify := destroy_notify }, released)
  else
    -- `g_warning ("params already owns user data")` when user_data ≠ NULL;
    -- no field other than the callback pointer changes.
    (params, [])

/-- `gdk_attach_params_copy`: `g_memdup` copies every field by value —
including `attach_user_data` and `attach_destroy_notify` — and only the two
rule arrays are freshly allocated (lists are values here). -/
def gdk_attach_params_copy (params : GdkAttachParams) : GdkAttachParams :=
  params

/-- `gdk_attach_params_free`: returns the list of context identities
released (`destroy_notify (user_data)` when both are set). -/
def gdk_attach_params_free (params : GdkAttachParams) : List Nat :=
  match params.attach_user_data, params.attach_destroy_notify with
  | some d, true => [d]
  | _, _ => []

/-- `use_rect_margin` in `is_satisfiable` (also the value of
`use_window_margin`). -/
def use_rect_margin (rule : GdkAttachRule) : Bool :=
  (rule.rect == RectComp.min && rule.window == WindowComp.max) ||
  (rule.rect == RectComp.max && rule.window == WindowComp.min)

/-- `use_window_margin` in `is_satisfiable`. -/
def use_window_margin (rule : GdkAttachRule) : Bool :=
  use_rect_margin rule

/-- `use_window_padding` in `is_satisfiable` (set to `TRUE`
unconditionally). -/
def use_window_padding : Bool :=
  true

/-- The `GDK_ATTACH_RECT_*` switch of `is_satisfiable` on the X axis: the
amount added to `*value` (beyond `origin_x`) by the rect case, margin
adjustments included.  A masked value outside the defined set matches no
case and adds nothing. -/
def rect_term_x (rule : GdkAttachRule) (params : GdkAttachParams) : Int :=
  match rule.rect with
  | RectComp.min =>
      params.attach_rect.x -
        (if use_rect_margin rule then params.attach_margin.left else 0)
  | RectComp.mid =>
      params.attach_rect.x + Int.tdiv params.attach_rect.width 2
  | RectComp.max =>
      params.attach_rect.x + params.attach_rect.width +
        (if use_rect_margin rule then params.attach_margin.right else 0)
  | RectComp.invalid => 0

/-- The `GDK_ATTACH_WINDOW_*` switch of `is_satisfiable` on the X axis. -/
def window_term_x (rule : GdkAttachRule) (params : GdkAttachParams)
    (width : Int) : Int :=
  match rule.window with
  | WindowComp.min =>
      (if use_window_margin rule then params.window_margin.left else 0) -
        (if use_window_padding then params.window_margin.left else 0)
  | WindowComp.mid => -(Int.tdiv width 2)
  | WindowComp.max =>
      -width -
        (if use_window_margin rule then params.window_margin.right else 0) +
        (if use_window_padding then params.window_margin.right else 0)
  | WindowComp.invalid => 0

/-- The `GDK_ATTACH_RECT_*` switch of `is_satisfiable` on the Y axis. -/
def rect_term_y (rule : GdkAttachRule) (params : GdkAttachParams) : Int :=
  match rule.rect with
  | RectComp.min =>
      params.attach_rect.y -
        (if use_rect_margin rule then params.attach_margin.top else 0)
  | RectComp.mid =>
      params.attach_rect.y + Int.tdiv params.attach_rect.height 2
  | RectComp.max =>
      params.attach_rect.y + params.attach_rect.height +
        (if use_rect_margin rule then params.attach_margin.bottom else 0)
  | RectComp.invalid => 0

/-- The `GDK_ATTACH_WINDOW_*` switch of `is_satisfiable` on the Y axis. -/
def window_term_y (rule : GdkAttachRule) (params : GdkAttachParams)
    (height : Int) : Int :=
  match rule.window with
  | WindowComp.min =>
      (if use_window_margin rule then params.window_margin.top else 0) -
        (if use_window_padding then params.window_margin.top else 0)
  | WindowComp.mid => -(Int.tdiv height 2)
  | WindowComp.max =>
      -height -
        (if use_window_margin rule then params.window_margin.bottom else 0) +
        (if use_window_padding then params.window_margin.bottom else 0)
  | WindowComp.invalid => 0

/-- `*value` as computed by `is_satisfiable` for an X-axis rule. -/
def sat_value_x (rule : GdkAttachRule) (params : GdkAttachParams)
    (width : Int) : Int :=
  params.origin_x + rect_term_x rule params + window_term_x rule params width +
    params.offset_x

/-- `*value` as computed by `is_satisfiable` for a Y-axis rule. -/
def sat_value_y (rule : GdkAttachRule) (params : GdkAttachParams)
    (height : Int) : Int :=
  params.origin_y + rect_term_y rule params + window_term_y rule params height +
    params.offset_y

/-- `is_satisfiable`: returns the satisfiability flag and the out-parameter
`*value`.  On the paths that return without writing `*value`
(`g_return_val_if_fail` and the fall-through for invalid axis bits) the
second component is the placeholder `0`; `gdk_attach_params_choose_position`
never reads it there, because it checks the axis bits before calling. -/
def is_satisfiable (rule : GdkAttachRule) (params : GdkAttachParams)
    (width height : Int) (bounds : Option GdkRectangle) : Bool × Int :=
  if ¬ params.has_attach_rect then (false, 0)
  else
    match rule.axis with
    | AttachAxis.x =>
        let v := sat_value_x rule params width
        (match bounds with
         | none => true
         | some b => decide (b.x ≤ v ∧ v + width ≤ b.x + b.width), v)
    | AttachAxis.y =>
        let v := sat_value_y rule params height
        (match bounds with
         | none => true
         | some b => decide (b.y ≤ v ∧ v + height ≤ b.y + b.height), v)
    | AttachAxis.invalid => (false, 0)

/-- The clamping block at the end of `gdk_attach_params_choose_position`,
one axis (the X and Y blocks are identical up to renaming).  Input `v` is
the coordinate chosen by the rule search (its offset starts at `0`);
output is the final coordinate and the accumulated offset. -/
def clampAxis (bmin bsize size v : Int) : Int × Int :=
  let v1 := if bmin + bsize < v + size then bmin + bsize - size else v
  let o1 := if bmin + bsize < v + size then bmin + bsize - size - v else 0
  let v2 := if v1 < bmin then bmin else v1
  let o2 := if v1 < bmin then o1 + (bmin - v1) else o1
  (v2, o2)

/-- The axis decoding switch at the top of the rule loop in
`gdk_attach_params_choose_position`: `X` is `false`, `Y` is `true`,
`none` is the `axis = -1` diagnostic case. -/
def axOf : AttachAxis → Option Bool
  | AttachAxis.x => some false
  | AttachAxis.y => some true
  | AttachAxis.invalid => none

/-- The local arrays of `gdk_attach_params_choose_position`:
`rules[i][BEST|GOOD][X|Y]`, `values[i][BEST|GOOD][X|Y]` and
`axes[i][BEST|GOOD]` for one of the two rule arrays `i`.  The first index
is the grade (`false` = `BEST`, `true` = `GOOD`), the second the axis
(`false` = `X`, `true` = `Y`); a rule slot holding `0` (no rule) is
`none`. -/
structure ScanState where
  rule : Bool → Bool → Option GdkAttachRule
  value : Bool → Bool → Int
  ax : Bool → Bool

/-- The `= { 0 }` initializers of the local arrays. -/
def initScan : ScanState where
  rule := fun _ _ => none
  value := fun _ _ => 0
  ax := fun _ => false

/-- Store `rules[g][a] = r; values[g][a] = v`. -/
def setRuleVal (st : ScanState) (g a : Bool) (r : GdkAttachRule) (v : Int) :
    ScanState :=
  { st with
    rule := fun g' a' => if g' = g ∧ a' = a then some r else st.rule g' a'
    value := fun g' a' => if g' = g ∧ a' = a then v else st.value g' a' }

/-- Store `axes[g] = a`. -/
def setAx (st : ScanState) (g a : Bool) : ScanState :=
  { st with ax := fun g' => if g' = g then a else st.ax g' }

/-- One iteration of the rule-scanning loop body (after the axis decoding),
for a rule on axis `a`.  The second component is `true` when the loop
executes `break`. -/
def scanStep (params : GdkAttachParams) (width height : Int)
    (bounds : Option GdkRectangle) (st : ScanState) (r : GdkAttachRule)
    (a : Bool) : ScanState × Bool :=
  let sat := (is_satisfiable r params width height bounds).1
  let v := (is_satisfiable r params width height bounds).2
  if sat && (st.rule false a).isNone then
    let st' := setRuleVal st false a r v
    if (st.rule false (!a)).isSome then (st', true)
    else (setAx st' false a, false)
  else if (st.rule true a).isNone then
    let st' := setRuleVal st true a r v
    (if (st.rule true (!a)).isNone then setAx st' true a else st', false)
  else (st, false)

/-- The rule-scanning loop of `gdk_attach_params_choose_position` over one
rule array.  A rule with invalid axis bits is skipped (`g_warning` +
`continue`); `break` stops the scan early. -/
def scanRules (params : GdkAttachParams) (width height : Int)
    (bounds : Option GdkRectangle) :
    List GdkAttachRule → ScanState → ScanState
  | [], st => st
  | r :: rest, st =>
    match axOf r.axis with
    | none => scanRules params width height bounds rest st
    | some a =>
      match scanStep params width height bounds st r a with
      | (st', true) => st'
      | (st', false) => scanRules params width height bounds rest st'

/-- The coordinates and rules picked by a successful combination of the
search loop, before the clamping block (`*offset_x`/`*offset_y` are `0` at
this point). -/
structure SearchHit where
  x : Int
  y : Int
  primary : GdkAttachRule
  secondary : GdkAttachRule
deriving DecidableEq, Repr

/-- One combination `(i, j, k)` of the nested search loop: primary grade
`i`, secondary grade `j`, axis candidate `k` (`true` = `Y`, `false` = `X`).
The C indexes the slot arrays with the boolean `axes[PRIMARY][i] == k`. -/
def tryCombo (stP stS : ScanState) (i j k : Bool) : Option SearchHit :=
  let pIdx := stP.ax i == k
  match stP.rule i pIdx, stS.rule j (!pIdx) with
  | some pr, some sr =>
      some (if pIdx == false
        then ⟨stP.value i false, stS.value j true, pr, sr⟩
        else ⟨stS.value j false, stP.value i true, pr, sr⟩)
  | _, _ => none

/-- The triple loop of `gdk_attach_params_choose_position`:
`i` from `BEST` to `GOOD`, `j` from `BEST` to `GOOD`, `k` from `Y` down to
`X`, returning at the first matching combination. -/
def searchHit (stP stS : ScanState) : Option SearchHit :=
  tryCombo stP stS false false true <|> tryCombo stP stS false false false <|>
  tryCombo stP stS false true true <|> tryCombo stP stS false true false <|>
  tryCombo stP stS true false true <|> tryCombo stP stS true false false <|>
  tryCombo stP stS true true true <|> tryCombo stP stS true true false

/-- `gdk_attach_params_choose_position` up to (and including) the success
search: `none` models returning `FALSE` (precondition failure or no
satisfiable non-conflicting pair). -/
def searchPhase (params : GdkAttachParams) (width height : Int)
    (bounds : Option GdkRectangle) : Option SearchHit :=
  if ¬ params.has_attach_rect then none
  else
    searchHit
      (scanRules params width height bounds params.primary_rules initScan)
      (scanRules params width height bounds params.secondary_rules initScan)

/-- The out-parameters of a successful `gdk_attach_params_choose_position`
call. -/
structure AttachResult where
  x : Int
  y : Int
  offset_x : Int
  offset_y : Int
  primary : GdkAttachRule
  secondary : GdkAttachRule
deriving DecidableEq, Repr

/-- `gdk_attach_params_choose_position`: rule search followed, on success
with bounds supplied, by the per-axis clamping block. -/
def gdk_attach_params_choose_position (params : GdkAttachParams)
    (width height : Int) (bounds : Option GdkRectangle) :
    Option AttachResult :=
  match searchPhase params width height bounds, bounds with
  | none, _ => none
  | some hit, none => some ⟨hit.x, hit.y, 0, 0, hit.primary, hit.secondary⟩
  | some hit, some b =>
      some ⟨(clampAxis b.x b.width width hit.x).1,
            (clampAxis b.y b.height height hit.y).1,
            (clampAxis b.x b.width width hit.x).2,
            (clampAxis b.y b.height height hit.y).2,
            hit.primary, hit.secondary⟩

/-- The data `gdk_attach_params_choose_position_for_window` obtains from
the external Monitor/Window Adapter before delegating: the window's pixel
size and the work area of the monitor containing the attachment
rectangle's center. -/
structure WindowEnv where
  bounds : GdkRectangle
  width : Int
  height : Int
deriving DecidableEq, Repr

/-- The arguments `gdk_attach_params_move_window` passes to the registered
callback (`x`, `y`, `offset_x`, `offset_y`, the chosen rules, and the
stored user data). -/
structure CallbackInvocation where
  x : Int
  y : Int
  offset_x : Int
  offset_y : Int
  primary : GdkAttachRule
  secondary : GdkAttachRule
  user_data : Option Nat
deriving DecidableEq, Repr

/-- The observable effects of one `gdk_attach_params_move_window` call:
whether/where `gdk_window_move` was called and whether/how the position
callback was invoked. -/
structure MoveOutcome where
  moved : Option (Int × Int)
  callback_invoked : Option CallbackInvocation
deriving DecidableEq, Repr

/-- `gdk_attach_params_move_window` (`params` is nullable in C).  The
monitor/window geometry lookup of
`gdk_attach_params_choose_position_for_window` is supplied as `env`. -/
def gdk_attach_params_move_window (params : Option GdkAttachParams)
    (env : WindowEnv) : MoveOutcome :=
  match params with
  | none => ⟨none, none⟩
  | some p =>
    if ¬ p.has_attach_rect then ⟨none, none⟩
    else
      match gdk_attach_params_choose_position p env.width env.height
              (some env.bounds) with
      | none => ⟨none, none⟩
      | some r =>
          ⟨some (r.x, r.y),
           if p.attach_callback then
             some ⟨r.x, r.y, r.offset_x, r.offset_y, r.primary, r.secondary,
                   p.attach_user_data⟩
           else none⟩

/-- Modelled from the spec: the horizontal component of an anchor of the
anchor+flip solver (`GdkAttachAnchor` left/center/right bits in
`src/gdk/gdkattachparams.h`; the solver implementation using them is not
under `src/`). -/
inductive HComp where
  | left
  | center
  | right
deriving DecidableEq, Repr

/-- Modelled from the spec: the vertical component of an anchor of the
anchor+flip solver. -/
inductive VComp where
  | top
  | center
  | bottom
deriving DecidableEq, Repr

/-- Modelled from the spec: an anchor, independent horizontal and vertical
components (§3). -/
structure SpecAnchor where
  h : HComp
  v : VComp
deriving DecidableEq, Repr

/-- Modelled from the spec: `ShadowInsets`, four non-negative pixel insets
(§3). -/
structure ShadowInsets where
  top : Int
  left : Int
  right : Int
  bottom : Int
deriving DecidableEq, Repr

/-- Modelled from the spec: `anchor_point`, horizontal coordinate (§4.1):
Left → `rect.x`, Center → `rect.x + rect.width/2` (truncating), Right →
`rect.x + rect.width`. -/
def anchorPointX (r : GdkRectangle) : HComp → Int
  | HComp.left => r.x
  | HComp.center => r.x + Int.tdiv r.width 2
  | HComp.right => r.x + r.width

/-- Modelled from the spec: `anchor_point`, vertical coordinate (§4.1),
symmetric using the height. -/
def anchorPointY (r : GdkRectangle) : VComp → Int
  | VComp.top => r.y
  | VComp.center => r.y + Int.tdiv r.height 2
  | VComp.bottom => r.y + r.height

/-- Modelled from the spec: `opposite` on the horizontal component (§4.1):
Left↔Right, Center↦Center. -/
def oppositeH : HComp → HComp
  | HComp.left => HComp.right
  | HComp.center => HComp.center
  | HComp.right => HComp.left

/-- Modelled from the spec: `opposite` on the vertical component (§4.1). -/
def oppositeV : VComp → VComp
  | VComp.top => VComp.bottom
  | VComp.center => VComp.center
  | VComp.bottom => VComp.top

/-- Modelled from the spec: the placement parameters of the anchor+flip
solver (§3 PlacementParams; the fields mirror `struct _GdkAttachParams` of
`src/unnamed/part_001`, whose solver is not under `src/`). -/
structure AnchorParams where
  origin_x : Int
  origin_y : Int
  attach_rect : GdkRectangle
  rect_anchor : SpecAnchor
  window_anchor : SpecAnchor
  flip_x : Bool
  flip_y : Bool
  dx : Int
  dy : Int
deriving DecidableEq, Repr

/-- Modelled from the spec: the window-anchor adjustment on X (§4.2 step
2): the distance from the window's outer left edge to the anchor point of
its visual (shadow-excluded) bounds. -/
def windowAdjustX (wa : HComp) (width : Int) (s : ShadowInsets) : Int :=
  match wa with
  | HComp.left => s.left
  | HComp.center => s.left + Int.tdiv (width - s.left - s.right) 2
  | HComp.right => width - s.right

/-- Modelled from the spec: the window-anchor adjustment on Y (§4.2 step
2). -/
def windowAdjustY (wa : VComp) (height : Int) (s : ShadowInsets) : Int :=
  match wa with
  | VComp.top => s.top
  | VComp.center => s.top + Int.tdiv (height - s.top - s.bottom) 2
  | VComp.bottom => height - s.bottom

/-- Modelled from the spec: the primary X candidate (§4.2 steps 1–3):
rect anchor resolved in absolute space, window anchor aligned to it, fixed
offset added. -/
def primaryCandX (ap : AnchorParams) (width : Int) (s : ShadowInsets) : Int :=
  ap.origin_x + anchorPointX ap.attach_rect ap.rect_anchor.h -
    windowAdjustX ap.window_anchor.h width s + ap.dx

/-- Modelled from the spec: the flipped X candidate (§4.2 step 5):
opposite rect anchor, opposite window anchor, offset subtracted. -/
def flippedCandX (ap : AnchorParams) (width : Int) (s : ShadowInsets) : Int :=
  ap.origin_x + anchorPointX ap.attach_rect (oppositeH ap.rect_anchor.h) -
    windowAdjustX (oppositeH ap.window_anchor.h) width s - ap.dx

/-- Modelled from the spec: the primary Y candidate (§4.2 steps 1–3). -/
def primaryCandY (ap : AnchorParams) (height : Int) (s : ShadowInsets) : Int :=
  ap.origin_y + anchorPointY ap.attach_rect ap.rect_anchor.v -
    windowAdjustY ap.window_anchor.v height s + ap.dy

/-- Modelled from the spec: the flipped Y candidate (§4.2 step 5). -/
def flippedCandY (ap : AnchorParams) (height : Int) (s : ShadowInsets) : Int :=
  ap.origin_y + anchorPointY ap.attach_rect (oppositeV ap.rect_anchor.v) -
    windowAdjustY (oppositeV ap.window_anchor.v) height s - ap.dy

/-- Modelled from the spec: whether a candidate's extent fits fully inside
the padded bounds `[lo, lo + span)` on one axis (§4.2 step 5). -/
def fitsIn (lo span c ext : Int) : Bool :=
  decide (lo ≤ c ∧ c + ext ≤ lo + span)

/-- Modelled from the spec: the padded bounds on X (§4.2 step 4): bounds
padded outward by the shadow insets, as `(min, span)`. -/
def paddedX (b : GdkRectangle) (s : ShadowInsets) : Int × Int :=
  (b.x - s.left, b.width + s.left + s.right)

/-- Modelled from the spec: the padded bounds on Y (§4.2 step 4). -/
def paddedY (b : GdkRectangle) (s : ShadowInsets) : Int × Int :=
  (b.y - s.top, b.height + s.top + s.bottom)

/-- Modelled from the spec: the clamp of §4.2 step 6 with the documented
oversized-window comparison (§9: `min - val ≤ val - max` decides the
direction). -/
def clampSpec (lo span ext c : Int) : Int :=
  if span < ext then
    if lo - c ≤ c - (lo + span - ext) then lo else lo + span - ext
  else
    max lo (min c (lo + span - ext))

/-- Modelled from the spec: one axis of the anchor+flip solve (§4.2 steps
5–6): try the flip when the primary candidate overflows and the hint
allows it, then clamp, reporting `(final, offset, flipped)`. -/
def axisSolve (primary flipped : Int) (hint : Bool)
    (bounds : Option (Int × Int)) (ext : Int) : Int × Int × Bool :=
  match bounds with
  | none => (primary, 0, false)
  | some (lo, span) =>
    let cf :=
      if !fitsIn lo span primary ext && hint then
        if fitsIn lo span flipped ext then (flipped, true)
        else (primary, false)
      else (primary, false)
    let c' := clampSpec lo span ext cf.1
    (c', c' - cf.1, cf.2)

/-- Modelled from the spec: the result record of `solve` (§4.2), the
values the anchor+flip variant delivers to its position callback
(`GdkAttachCallback` in `src/gdk/gdkattachparams.h`). -/
structure AnchorSolveOut where
  x : Int
  y : Int
  offset_x : Int
  offset_y : Int
  flipped_x : Bool
  flipped_y : Bool
deriving DecidableEq, Repr

/-- Modelled from the spec: `solve(params, window_width, window_height,
shadow, bounds?)` of the anchor+flip variant (§4.2), whose implementation
is not under `src/`; each axis is resolved independently. -/
def gdk_anchor_solve (ap : AnchorParams) (width height : Int)
    (s : ShadowInsets) (bounds : Option GdkRectangle) : AnchorSolveOut :=
  let rx := axisSolve (primaryCandX ap width s) (flippedCandX ap width s)
    ap.flip_x (bounds.map (fun b => paddedX b s)) width
  let ry := axisSolve (primaryCandY ap height s) (flippedCandY ap height s)
    ap.flip_y (bounds.map (fun b => paddedY b s)) height
  ⟨rx.1, ry.1, rx.2.1, ry.2.1, rx.2.2, ry.2.2⟩

/-! ## Concrete fixtures used by counterexamples and witnesses -/

/-- An X-axis rule aligning the rect minimum with the window minimum. -/
def ruleXMinMin : GdkAttachRule := ⟨AttachAxis.x, RectComp.min, WindowComp.min⟩

/-- A Y-axis rule aligning the rect minimum with the window minimum. -/
def ruleYMinMin : GdkAttachRule := ⟨AttachAxis.y, RectComp.min, WindowComp.min⟩

/-- A 400×300 monitor work area at the origin. -/
def boundsA : GdkRectangle := ⟨0, 0, 400, 300⟩

/-- Params with a valid attachment rectangle at (10, 20) and min/min rules
on both axes. -/
def paramsFit : GdkAttachParams :=
  { gdk_attach_params_new with
    has_attach_rect := true
    attach_rect := ⟨10, 20, 5, 5⟩
    primary_rules := [ruleXMinMin]
    secondary_rules := [ruleYMinMin] }

/-- Params whose attachment rectangle sits far left of `boundsA`. -/
def paramsFar : GdkAttachParams :=
  { gdk_attach_params_new with
    has_attach_rect := true
    attach_rect := ⟨-1000, 0, 0, 0⟩
    primary_rules := [ruleXMinMin]
    secondary_rules := [ruleYMinMin] }

/-- Params whose attachment rectangle starts exactly at `boundsA.x`. -/
def paramsEdge : GdkAttachParams :=
  { gdk_attach_params_new with
    has_attach_rect := true
    attach_rect := ⟨0, 0, 10, 10⟩
    primary_rules := [ruleXMinMin]
    secondary_rules := [ruleYMinMin] }

/-- A rule whose axis bits lie outside the defined set. -/
def ruleBadAxis : GdkAttachRule :=
  ⟨AttachAxis.invalid, RectComp.mid, WindowComp.mid⟩

/-- Params whose sole primary rule has invalid axis bits; the secondary
list provides a satisfiable rule on each axis. -/
def paramsBadAxis : GdkAttachParams :=
  { gdk_attach_params_new with
    has_attach_rect := true
    attach_rect := ⟨0, 0, 10, 10⟩
    primary_rules := [ruleBadAxis]
    secondary_rules := [ruleYMinMin, ruleXMinMin] }

/-! ## Properties of the clamping block -/

/-- If the window fits in the span, both clamp steps leave the coordinate
inside the bounds. -/
theorem clampAxis_mem (bmin bsize size v : Int) (h : size ≤ bsize) :
    bmin ≤ (clampAxis bmin bsize size v).1 ∧
      (clampAxis bmin bsize size v).1 + size ≤ bmin + bsize := by
  simp only [clampAxis]
  split_ifs <;> constructor <;> omega

/-- The accumulated offset is exactly the displacement applied. -/
theorem clampAxis_offset (bmin bsize size v : Int) :
    (clampAxis bmin bsize size v).2 = (clampAxis bmin bsize size v).1 - v := by
  simp only [clampAxis]
  split_ifs <;> omega

/-- An oversized window is always pushed to the minimum edge: the first
clamp puts it at `bmin + bsize - size < bmin`, so the second clamp always
fires. -/
theorem clampAxis_oversize (bmin bsize size v : Int) (h : bsize < size) :
    (clampAxis bmin bsize size v).1 = bmin := by
  simp only [clampAxis]
  split_ifs <;> omega

/-- Inversion for a successful bounded solve: the result is the clamp of
the coordinates chosen by the rule search. -/
theorem choose_some_elim (params : GdkAttachParams) (width height : Int)
    (b : GdkRectangle) (r : AttachResult)
    (hr : gdk_attach_params_choose_position params width height (some b) =
      some r) :
    ∃ hit, searchPhase params width height (some b) = some hit ∧
      r = ⟨(clampAxis b.x b.width width hit.x).1,
           (clampAxis b.y b.height height hit.y).1,
           (clampAxis b.x b.width width hit.x).2,
           (clampAxis b.y b.height height hit.y).2,
           hit.primary, hit.secondary⟩ := by
  unfold gdk_attach_params_choose_position at hr
  cases hs : searchPhase params width height (some b) with
  | none => rw [hs] at hr; cases hr
  | some hit =>
      rw [hs] at hr
      exact ⟨hit, rfl, (Option.some.inj hr).symm⟩

/-- C1: for every call to the position solver that succeeds with a bounds
rectangle supplied, and for each axis on which the window size is at most
the bounds size, the returned coordinate `c` satisfies `bounds.min ≤ c`
and `c + window_size ≤ bounds.max`. -/
theorem C1_bounds_containment (params : GdkAttachParams) (width height : Int)
    (b : GdkRectangle) (r : AttachResult)
    (hr : gdk_attach_params_choose_position params width height (some b) =
      some r) :
    (width ≤ b.width → b.x ≤ r.x ∧ r.x + width ≤ b.x + b.width) ∧
    (height ≤ b.height → b.y ≤ r.y ∧ r.y + height ≤ b.y + b.height) := by
  obtain ⟨hit, -, rfl⟩ := choose_some_elim params width height b r hr
  exact ⟨fun hw => clampAxis_mem b.x b.width width hit.x hw,
         fun hh => clampAxis_mem b.y b.height height hit.y hh⟩

/-- Witness for C1 at a concrete fitting solve. -/
theorem C1_witness :
    (200 : Int) ≤ boundsA.width ∧ (100 : Int) ≤ boundsA.height ∧
    boundsA.x ≤ (10 : Int) ∧ (10 : Int) + 200 ≤ boundsA.x + boundsA.width ∧
    boundsA.y ≤ (20 : Int) ∧ (20 : Int) + 100 ≤ boundsA.y + boundsA.height := by
  have h := C1_bounds_containment paramsFit 200 100 boundsA
    ⟨10, 20, 0, 0, ruleXMinMin, ruleYMinMin⟩ (by decide)
  obtain ⟨h1, h2⟩ := h
  obtain ⟨ha, hb⟩ := h1 (by decide)
  obtain ⟨hc, hd⟩ := h2 (by decide)
  exact ⟨by decide, by decide, ha, hb, hc, hd⟩

/-- C2 counterexample: with `window_width = 500 > boundsA.width = 400` and
pre-clamp candidate `x = -1000`, the max-edge position
`bounds.x + bounds.width - window_width = -100` is strictly nearer to the
candidate than the min edge `bounds.x = 0`, yet the solver returns
`x = bounds.x = 0`, not the nearer edge. -/
theorem C2_counterexample :
    searchPhase paramsFar 500 10 (some boundsA) =
      some ⟨-1000, 0, ruleXMinMin, ruleYMinMin⟩ ∧
    gdk_attach_params_choose_position paramsFar 500 10 (some boundsA) =
      some ⟨0, 0, 1000, 0, ruleXMinMin, ruleYMinMin⟩ ∧
    boundsA.width < 500 ∧
    ((-1000 : Int) - (boundsA.x + boundsA.width - 500)).natAbs <
      ((-1000 : Int) - boundsA.x).natAbs ∧
    (0 : Int) ≠ boundsA.x + boundsA.width - 500 := by
  refine ⟨by decide, by decide, by decide, by decide, by decide⟩

/-- C2 as amended: when bounds are supplied and the window is larger than
the bounds span on an axis, the final clamped coordinate on that axis
always equals the bounds minimum edge (`bounds.x`, resp. `bounds.y`),
regardless of which edge is nearer to the pre-clamp candidate. -/
theorem C2_amended_oversize_min_edge (params : GdkAttachParams)
    (width height : Int) (b : GdkRectangle) (r : AttachResult)
    (hr : gdk_attach_params_choose_position params width height (some b) =
      some r) :
    (b.width < width → r.x = b.x) ∧ (b.height < height → r.y = b.y) := by
  obtain ⟨hit, -, rfl⟩ := choose_some_elim params width height b r hr
  exact ⟨fun hw => clampAxis_oversize b.x b.width width hit.x hw,
         fun hh => clampAxis_oversize b.y b.height height hit.y hh⟩

/-- Witness for the amended C2 at the concrete oversized solve. -/
theorem C2_witness :
    boundsA.width < (500 : Int) ∧ (0 : Int) = boundsA.x := by
  have h := C2_amended_oversize_min_edge paramsFar 500 10 boundsA
    ⟨0, 0, 1000, 0, ruleXMinMin, ruleYMinMin⟩ (by decide)
  exact ⟨by decide, h.1 (by decide)⟩

/-- C3: for every successful solve with bounds supplied, each reported
per-axis offset equals exactly the final clamped coordinate minus the
pre-clamp candidate coordinate chosen by the rule search on that axis, and
is zero when no clamping moved that axis. -/
theorem C3_offset_accounting (params : GdkAttachParams) (width height : Int)
    (b : GdkRectangle) (hit : SearchHit) (r : AttachResult)
    (hhit : searchPhase params width height (some b) = some hit)
    (hr : gdk_attach_params_choose_position params width height (some b) =
      some r) :
    r.offset_x = r.x - hit.x ∧ r.offset_y = r.y - hit.y ∧
    (r.x = hit.x → r.offset_x = 0) ∧ (r.y = hit.y → r.offset_y = 0) := by
  obtain ⟨hit', hhit', rfl⟩ := choose_some_elim params width height b r hr
  rw [hhit] at hhit'
  obtain rfl := Option.some.inj hhit'
  refine ⟨clampAxis_offset b.x b.width width hit.x,
          clampAxis_offset b.y b.height height hit.y, ?_, ?_⟩
  · intro hx
    dsimp only at hx ⊢
    rw [clampAxis_offset b.x b.width width hit.x]
    omega
  · intro hy
    dsimp only at hy ⊢
    rw [clampAxis_offset b.y b.height height hit.y]
    omega

/-- Witness for C3 at a concrete clamped solve: the candidate `-1000` is
clamped to `0` and the reported offset is exactly `0 - (-1000) = 1000`. -/
theorem C3_witness : (1000 : Int) = 0 - (-1000) := by
  have h := C3_offset_accounting paramsFar 500 10 boundsA
    ⟨-1000, 0, ruleXMinMin, ruleYMinMin⟩
    ⟨0, 0, 1000, 0, ruleXMinMin, ruleYMinMin⟩ (by decide) (by decide)
  exact h.1

/-- The `g_return_val_if_fail (params->has_attach_rect, FALSE)` guard:
without a valid attachment rectangle the solver returns `FALSE` and writes
no position. -/
theorem choose_none_of_no_rect (params : GdkAttachParams)
    (width height : Int) (bounds : Option GdkRectangle)
    (h : params.has_attach_rect = false) :
    gdk_attach_params_choose_position params width height bounds = none := by
  have hs : searchPhase params width height bounds = none := by
    unfold searchPhase
    simp [h]
  unfold gdk_attach_params_choose_position
  rw [hs]

/-- C4: a params without an attachment rectangle is rejected:
`gdk_attach_params_choose_position` returns `FALSE` (no position is
produced, in particular no silent success at the origin), and
`gdk_attach_params_move_window` neither moves the window nor invokes the
callback. -/
theorem C4_missing_rect_rejected (params : GdkAttachParams)
    (width height : Int) (bounds : Option GdkRectangle) (env : WindowEnv)
    (h : params.has_attach_rect = false) :
    gdk_attach_params_choose_position params width height bounds = none ∧
    gdk_attach_params_move_window (some params) env = ⟨none, none⟩ := by
  refine ⟨choose_none_of_no_rect params width height bounds h, ?_⟩
  unfold gdk_attach_params_move_window
  simp [h]

/-- Witness for C4 on a freshly created params (no attachment rectangle
yet). -/
theorem C4_witness :
    gdk_attach_params_new.has_attach_rect = false ∧
    gdk_attach_params_choose_position gdk_attach_params_new 10 10
      (some boundsA) = none ∧
    gdk_attach_params_move_window (some gdk_attach_params_new)
      ⟨boundsA, 10, 10⟩ = ⟨none, none⟩ := by
  have h := C4_missing_rect_rejected gdk_attach_params_new 10 10
    (some boundsA) ⟨boundsA, 10, 10⟩ (by decide)
  exact ⟨by decide, h.1, h.2⟩

/-- C10: `gdk_attach_params_set_attach_rect` with NULL clears
`has_attach_rect` (so every subsequent solve is rejected with `FALSE`)
and with a rectangle stores a copy and marks it valid; in both cases every
other field of the params is left unchanged. -/
theorem C10_set_attach_rect (params : GdkAttachParams) (rect : GdkRectangle)
    (width height : Int) (bounds : Option GdkRectangle) :
    (gdk_attach_params_set_attach_rect params none).has_attach_rect = false ∧
    gdk_attach_params_choose_position
      (gdk_attach_params_set_attach_rect params none) width height bounds =
      none ∧
    (gdk_attach_params_set_attach_rect params (some rect)).has_attach_rect =
      true ∧
    (gdk_attach_params_set_attach_rect params (some rect)).attach_rect =
      rect ∧
    (∀ q : Option GdkRectangle,
      (gdk_attach_params_set_attach_rect params q).origin_x =
        params.origin_x ∧
      (gdk_attach_params_set_attach_rect params q).origin_y =
        params.origin_y ∧
      (gdk_attach_params_set_attach_rect params q).attach_margin =
        params.attach_margin ∧
      (gdk_attach_params_set_attach_rect params q).window_margin =
        params.window_margin ∧
      (gdk_attach_params_set_attach_rect params q).window_padding =
        params.window_padding ∧
      (gdk_attach_params_set_attach_rect params q).offset_x =
        params.offset_x ∧
      (gdk_attach_params_set_attach_rect params q).offset_y =
        params.offset_y ∧
      (gdk_attach_params_set_attach_rect params q).primary_rules =
        params.primary_rules ∧
      (gdk_attach_params_set_attach_rect params q).secondary_rules =
        params.secondary_rules ∧
      (gdk_attach_params_set_attach_rect params q).attach_callback =
        params.attach_callback ∧
      (gdk_attach_params_set_attach_rect params q).attach_user_data =
        params.attach_user_data ∧
      (gdk_attach_params_set_attach_rect params q).attach_destroy_notify =
        params.attach_destroy_notify) ∧
    (gdk_attach_params_set_attach_rect params none).attach_rect =
      params.attach_rect := by
  refine ⟨rfl, choose_none_of_no_rect _ width height bounds rfl, rfl, rfl,
    fun q => ?_, rfl⟩
  cases q <;>
    exact ⟨rfl, rfl, rfl, rfl, rfl, rfl, rfl, rfl, rfl, rfl, rfl, rfl⟩

/-- C8: with all margins zero, the rectangle-side anchor coordinate
computed by `is_satisfiable` agrees with the anchor-geometry definition on
each axis: the minimum component maps to the rectangle's origin, the
center component to origin + extent/2 with truncating division, and the
maximum component to origin + extent (width on X, height on Y). -/
theorem C8_rect_anchor_geometry (rule : GdkAttachRule)
    (params : GdkAttachParams)
    (hm : params.attach_margin = ⟨0, 0, 0, 0⟩) :
    (rule.rect = RectComp.min →
      rect_term_x rule params = anchorPointX params.attach_rect HComp.left ∧
      rect_term_y rule params = anchorPointY params.attach_rect VComp.top) ∧
    (rule.rect = RectComp.mid →
      rect_term_x rule params = anchorPointX params.attach_rect HComp.center ∧
      rect_term_y rule params = anchorPointY params.attach_rect VComp.center) ∧
    (rule.rect = RectComp.max →
      rect_term_x rule params = anchorPointX params.attach_rect HComp.right ∧
      rect_term_y rule params = anchorPointY params.attach_rect VComp.bottom) := by
  refine ⟨fun h => ?_, fun h => ?_, fun h => ?_⟩ <;>
    constructor <;>
      simp [rect_term_x, rect_term_y, anchorPointX, anchorPointY, h, hm]

/-- Witness for C8: concrete evaluation of the three anchor equations at
`paramsFit` (all margins zero). -/
theorem C8_witness :
    paramsFit.attach_margin = ⟨0, 0, 0, 0⟩ ∧
    rect_term_x ⟨AttachAxis.x, RectComp.mid, WindowComp.mid⟩ paramsFit =
      anchorPointX paramsFit.attach_rect HComp.center ∧
    rect_term_y ⟨AttachAxis.y, RectComp.max, WindowComp.min⟩ paramsFit =
      anchorPointY paramsFit.attach_rect VComp.bottom := by
  refine ⟨by decide, ?_, ?_⟩
  · exact ((C8_rect_anchor_geometry ⟨AttachAxis.x, RectComp.mid,
      WindowComp.mid⟩ paramsFit (by decide)).2.1 rfl).1
  · exact ((C8_rect_anchor_geometry ⟨AttachAxis.y, RectComp.max,
      WindowComp.min⟩ paramsFit (by decide)).2.2 rfl).2

/-- C9 (code bug demonstration): registering a context with a destroy
notify, deep-copying the params and freeing both copies releases the same
context twice — `gdk_attach_params_copy` duplicates `attach_user_data`
and `attach_destroy_notify` by `g_memdup`, so ownership is no longer
exclusive and each `gdk_attach_params_free` releases it again. -/
theorem C9_callback_context_double_release :
    (gdk_attach_params_set_position_callback gdk_attach_params_new true
      (some 7) true).2 = [] ∧
    gdk_attach_params_free
        (gdk_attach_params_set_position_callback gdk_attach_params_new true
          (some 7) true).1 ++
      gdk_attach_params_free
        (gdk_attach_params_copy
          (gdk_attach_params_set_position_callback gdk_attach_params_new true
            (some 7) true).1) = [7, 7] := by
  exact ⟨by decide, by decide⟩

/-- Flip-flag behaviour of one modelled solve axis: the flag is false when
the primary candidate fits or the hint is disabled, and true only when the
overflowing primary was replaced by a flipped candidate that fits. -/
theorem axisSolve_flag (primary flipped : Int) (hint : Bool)
    (lo span ext : Int) :
    (fitsIn lo span primary ext = true →
      (axisSolve primary flipped hint (some (lo, span)) ext).2.2 = false) ∧
    (hint = false →
      (axisSolve primary flipped hint (some (lo, span)) ext).2.2 = false) ∧
    ((axisSolve primary flipped hint (some (lo, span)) ext).2.2 = true →
      fitsIn lo span primary ext = false ∧ hint = true ∧
        fitsIn lo span flipped ext = true) := by
  refine ⟨fun h1 => ?_, fun h2 => ?_, fun h3 => ?_⟩
  · simp [axisSolve, h1]
  · simp [axisSolve, h2]
  · by_cases h1 : fitsIn lo span primary ext = true
    · simp [axisSolve, h1] at h3
    · by_cases h2 : hint = true
      · by_cases hf : fitsIn lo span flipped ext = true
        · exact ⟨Bool.eq_false_iff.mpr h1, h2, hf⟩
        · simp [axisSolve, h1, h2, hf] at h3
      · have h2' : hint = false := by revert h2; cases hint <;> simp
        simp [axisSolve, h2'] at h3

/-- C6 (on the spec-modelled anchor+flip solver): the per-axis flipped
flags delivered in the result are true only when that axis actually
adopted the opposite-anchor candidate — false whenever the primary
candidate already fits fully in padded bounds regardless of flip hints,
and always false on an axis whose flip hint is disabled, independent of
any later clamping. -/
theorem C6_flip_flags (ap : AnchorParams) (width height : Int)
    (s : ShadowInsets) (b : GdkRectangle) :
    (fitsIn (paddedX b s).1 (paddedX b s).2 (primaryCandX ap width s)
        width = true →
      (gdk_anchor_solve ap width height s (some b)).flipped_x = false) ∧
    (ap.flip_x = false →
      (gdk_anchor_solve ap width height s (some b)).flipped_x = false) ∧
    ((gdk_anchor_solve ap width height s (some b)).flipped_x = true →
      fitsIn (paddedX b s).1 (paddedX b s).2 (primaryCandX ap width s)
          width = false ∧
      ap.flip_x = true ∧
      fitsIn (paddedX b s).1 (paddedX b s).2 (flippedCandX ap width s)
          width = true) ∧
    (fitsIn (paddedY b s).1 (paddedY b s).2 (primaryCandY ap height s)
        height = true →
      (gdk_anchor_solve ap width height s (some b)).flipped_y = false) ∧
    (ap.flip_y = false →
      (gdk_anchor_solve ap width height s (some b)).flipped_y = false) ∧
    ((gdk_anchor_solve ap width height s (some b)).flipped_y = true →
      fitsIn (paddedY b s).1 (paddedY b s).2 (primaryCandY ap height s)
          height = false ∧
      ap.flip_y = true ∧
      fitsIn (paddedY b s).1 (paddedY b s).2 (flippedCandY ap height s)
          height = true) := by
  have ex : (gdk_anchor_solve ap width height s (some b)).flipped_x =
      (axisSolve (primaryCandX ap width s) (flippedCandX ap width s)
        ap.flip_x (some ((paddedX b s).1, (paddedX b s).2)) width).2.2 := rfl
  have ey : (gdk_anchor_solve ap width height s (some b)).flipped_y =
      (axisSolve (primaryCandY ap height s) (flippedCandY ap height s)
        ap.flip_y (some ((paddedY b s).1, (paddedY b s).2)) height).2.2 := rfl
  have hx := axisSolve_flag (primaryCandX ap width s) (flippedCandX ap width s)
    ap.flip_x (paddedX b s).1 (paddedX b s).2 width
  have hy := axisSolve_flag (primaryCandY ap height s)
    (flippedCandY ap height s) ap.flip_y (paddedY b s).1 (paddedY b s).2
    height
  rw [ex, ey]
  exact ⟨hx.1, hx.2.1, hx.2.2, hy.1, hy.2.1, hy.2.2⟩

/-- The attachment scenario of the specification: rect-anchor
bottom-center, window-anchor top-center, vertical flip allowed. -/
def apScenario : AnchorParams where
  origin_x := 0
  origin_y := 0
  attach_rect := ⟨100, 100, 50, 20⟩
  rect_anchor := ⟨HComp.center, VComp.bottom⟩
  window_anchor := ⟨HComp.center, VComp.top⟩
  flip_x := false
  flip_y := true
  dx := 0
  dy := 0

/-- Zero shadow insets. -/
def shadow0 : ShadowInsets := ⟨0, 0, 0, 0⟩

/-- A 400×150 work area (too short for the primary vertical candidate). -/
def boundsShort : GdkRectangle := ⟨0, 0, 400, 150⟩

/-- Witness for C6: on the spec's flipping scenario, the X axis (primary
fits, hint disabled) reports no flip, while the Y axis overflow with the
flip hint enabled adopts the flipped candidate and reports the flip. -/
theorem C6_witness :
    fitsIn (paddedX boundsShort shadow0).1 (paddedX boundsShort shadow0).2
      (primaryCandX apScenario 200 shadow0) 200 = true ∧
    (gdk_anchor_solve apScenario 200 100 shadow0
      (some boundsShort)).flipped_x = false ∧
    apScenario.flip_x = false ∧
    (gdk_anchor_solve apScenario 200 100 shadow0
      (some boundsShort)).flipped_y = true ∧
    (fitsIn (paddedY boundsShort shadow0).1 (paddedY boundsShort shadow0).2
       (primaryCandY apScenario 100 shadow0) 100 = false ∧
     apScenario.flip_y = true ∧
     fitsIn (paddedY boundsShort shadow0).1 (paddedY boundsShort shadow0).2
       (flippedCandY apScenario 100 shadow0) 100 = true) := by
  refine ⟨by decide, ?_, by decide, by decide, ?_⟩
  · exact (C6_flip_flags apScenario 200 100 shadow0 boundsShort).1 (by decide)
  · exact (C6_flip_flags apScenario 200 100 shadow0 boundsShort).2.2.2.2.2
      (by decide)
/-! ## Invariants of the rule-scanning loop -/

/-- Rule slots are never cleared: `setRuleVal` only writes `some`. -/
theorem setRuleVal_isSome_mono (st : ScanState) (g a : Bool)
    (r : GdkAttachRule) (v : Int) (g' a' : Bool)
    (h : (st.rule g' a').isSome = true) :
    ((setRuleVal st g a r v).rule g' a').isSome = true := by
  simp only [setRuleVal]
  split
  · rfl
  · exact h

/-- The slot written by `setRuleVal` holds a rule. -/
theorem setRuleVal_isSome_self (st : ScanState) (g a : Bool)
    (r : GdkAttachRule) (v : Int) :
    ((setRuleVal st g a r v).rule g a).isSome = true := by
  simp [setRuleVal]

/-- `setAx` does not touch the rule slots. -/
theorem setAx_rule (st : ScanState) (g a g' a' : Bool) :
    ((setAx st g a).rule g' a') = st.rule g' a' := rfl

/-- One scan step never clears a rule slot. -/
theorem scanStep_mono (params : GdkAttachParams) (width height : Int)
    (bounds : Option GdkRectangle) (st : ScanState) (r : GdkAttachRule)
    (a g' a' : Bool) (h : (st.rule g' a').isSome = true) :
    (((scanStep params width height bounds st r a).1).rule g' a').isSome =
      true := by
  unfold scanStep
  dsimp only
  split
  · split
    · dsimp only
      exact setRuleVal_isSome_mono st false a r _ g' a' h
    · dsimp only
      rw [setAx_rule]
      exact setRuleVal_isSome_mono st false a r _ g' a' h
  · split
    · dsimp only
      split
      · rw [setAx_rule]
        exact setRuleVal_isSome_mono st true a r _ g' a' h
      · exact setRuleVal_isSome_mono st true a r _ g' a' h
    · dsimp only
      exact h

/-- After a scan step for a rule on axis `a`, the `BEST` or `GOOD` slot of
axis `a` holds a rule (the final `else` branch only triggers when `GOOD`
is already occupied). -/
theorem scanStep_fills (params : GdkAttachParams) (width height : Int)
    (bounds : Option GdkRectangle) (st : ScanState) (r : GdkAttachRule)
    (a : Bool) :
    (((scanStep params width height bounds st r a).1).rule false a).isSome =
        true ∨
    (((scanStep params width height bounds st r a).1).rule true a).isSome =
        true := by
  unfold scanStep
  dsimp only
  split
  · split
    · dsimp only
      exact Or.inl (setRuleVal_isSome_self st false a r _)
    · dsimp only
      rw [setAx_rule]
      exact Or.inl (setRuleVal_isSome_self st false a r _)
  · split
    · dsimp only
      refine Or.inr ?_
      split
      · rw [setAx_rule]
        exact setRuleVal_isSome_self st true a r _
      · exact setRuleVal_isSome_self st true a r _
    · rename_i hgood
      dsimp only
      refine Or.inr ?_
      revert hgood
      cases st.rule true a <;> simp

/-- When a scan step breaks, both `BEST` slots hold rules. -/
theorem scanStep_break (params : GdkAttachParams) (width height : Int)
    (bounds : Option GdkRectangle) (st : ScanState) (r : GdkAttachRule)
    (a : Bool) (hb : (scanStep params width height bounds st r a).2 = true) :
    (((scanStep params width height bounds st r a).1).rule false a).isSome =
        true ∧
    (((scanStep params width height bounds st r a).1).rule false
        (!a)).isSome = true := by
  unfold scanStep at hb ⊢
  dsimp only at hb ⊢
  split at hb
  · rename_i h1
    split at hb
    · rename_i h2
      rw [if_pos h1, if_pos h2]
      dsimp only
      refine ⟨setRuleVal_isSome_self st false a r _, ?_⟩
      simp only [setRuleVal]
      split
      · rfl
      · exact h2
    · dsimp only at hb
      cases hb
  · rename_i h1
    split at hb <;> dsimp only at hb <;> cases hb

/-- Any boolean equals `b` or `!b`. -/
theorem bool_eq_or_eq_not (a b : Bool) : a = b ∨ a = !b := by
  cases a <;> cases b <;> simp

/-- Loop invariant of the rule scan: if some rule of the list lies on axis
`a` (or a slot of axis `a` is already filled), then after the scan the
`BEST` or `GOOD` slot of axis `a` is filled — even if the loop breaks
early, since the break requires both `BEST` slots to be filled. -/
theorem scanRules_covers (params : GdkAttachParams) (width height : Int)
    (bounds : Option GdkRectangle) (a : Bool) :
    ∀ (l : List GdkAttachRule) (st : ScanState),
      ((∃ r ∈ l, axOf r.axis = some a) ∨
        (st.rule false a).isSome = true ∨ (st.rule true a).isSome = true) →
      (((scanRules params width height bounds l st).rule false a).isSome =
          true ∨
       ((scanRules params width height bounds l st).rule true a).isSome =
          true) := by
  intro l
  induction l with
  | nil =>
      intro st hyp
      simp only [scanRules]
      rcases hyp with ⟨r, hr, -⟩ | h | h
      · cases hr
      · exact Or.inl h
      · exact Or.inr h
  | cons r rest ih =>
      intro st hyp
      cases hax : axOf r.axis with
      | none =>
          simp only [scanRules, hax]
          refine ih st ?_
          rcases hyp with ⟨r', hr', ha'⟩ | h | h
          · rcases List.mem_cons.mp hr' with rfl | hmem
            · rw [hax] at ha'
              cases ha'
            · exact Or.inl ⟨r', hmem, ha'⟩
          · exact Or.inr (Or.inl h)
          · exact Or.inr (Or.inr h)
      | some a' =>
          simp only [scanRules, hax]
          cases hstep : scanStep params width height bounds st r a' with
          | mk st' brk =>
              cases brk with
              | true =>
                  have hb := scanStep_break params width height bounds st r a'
                    (by rw [hstep])
                  rw [hstep] at hb
                  dsimp only at hb
                  rcases bool_eq_or_eq_not a a' with rfl | rfl
                  · exact Or.inl hb.1
                  · exact Or.inl hb.2
              | false =>
                  refine ih st' ?_
                  rcases hyp with ⟨r', hr', ha'⟩ | h | h
                  · rcases List.mem_cons.mp hr' with rfl | hmem
                    · rw [hax] at ha'
                      have haa : a' = a := Option.some.inj ha'
                      rw [haa] at hstep
                      have hf := scanStep_fills params width height bounds st
                        r' a
                      rw [hstep] at hf
                      dsimp only at hf
                      rcases hf with hf | hf
                      · exact Or.inr (Or.inl hf)
                      · exact Or.inr (Or.inr hf)
                    · exact Or.inl ⟨r', hmem, ha'⟩
                  · have hm := scanStep_mono params width height bounds st r a'
                      false a h
                    rw [hstep] at hm
                    exact Or.inr (Or.inl hm)
                  · have hm := scanStep_mono params width height bounds st r a'
                      true a h
                    rw [hstep] at hm
                    exact Or.inr (Or.inr hm)

/-- `Option.orElse` succeeds iff either side does. -/
theorem orElse_isSome (x y : Option SearchHit) :
    (x <|> y).isSome = (x.isSome || y.isSome) := by
  cases x <;> rfl

/-- A combination whose two indexed slots are filled is accepted. -/
theorem tryCombo_isSome (stP stS : ScanState) (i j k : Bool)
    (hp : (stP.rule i (stP.ax i == k)).isSome = true)
    (hs : (stS.rule j (!(stP.ax i == k))).isSome = true) :
    (tryCombo stP stS i j k).isSome = true := by
  unfold tryCombo
  dsimp only
  cases hP : stP.rule i (stP.ax i == k) with
  | none => rw [hP] at hp; cases hp
  | some pr =>
      cases hS : stS.rule j (!(stP.ax i == k)) with
      | none => rw [hS] at hs; cases hs
      | some sr => rfl

/-- If the primary scan filled a slot on axis `a` (at grade `i`) and the
secondary scan filled a slot on the other axis (at grade `j`), the search
loop finds a combination: as `k` ranges over `Y` and `X`, the boolean
index `axes == k` takes both values, so some combination addresses exactly
those two slots. -/
theorem searchHit_isSome (stP stS : ScanState) (i j a : Bool)
    (hp : (stP.rule i a).isSome = true)
    (hs : (stS.rule j (!a)).isSome = true) :
    (searchHit stP stS).isSome = true := by
  obtain ⟨k, hk⟩ : ∃ k, (stP.ax i == k) = a := by
    cases a
    · exact ⟨!(stP.ax i), by cases stP.ax i <;> rfl⟩
    · exact ⟨stP.ax i, by cases stP.ax i <;> rfl⟩
  have hC : (tryCombo stP stS i j k).isSome = true :=
    tryCombo_isSome stP stS i j k (by rw [hk]; exact hp)
      (by rw [hk]; exact hs)
  unfold searchHit
  simp only [orElse_isSome, Bool.or_eq_true]
  cases i <;> cases j <;> cases hkk : k <;> rw [hkk] at hC <;> tauto

/-- C7 counterexample: with the sole primary rule unsatisfiable on X (its
candidate `x = 0` cannot fit a 500-wide window in 400-wide bounds), the
solve still succeeds — but the reported `offset_x` is `0`, not non-zero,
because the two clamp displacements cancel exactly when the ideal position
already sits at the bounds minimum. -/
theorem C7_counterexample :
    (is_satisfiable ruleXMinMin paramsEdge 500 10 (some boundsA)).1 =
      false ∧
    paramsEdge.primary_rules = [ruleXMinMin] ∧
    gdk_attach_params_choose_position paramsEdge 500 10 (some boundsA) =
      some ⟨0, 0, 0, 0, ruleXMinMin, ruleYMinMin⟩ := by
  exact ⟨by decide, by decide, by decide⟩

/-- C7 as amended: when no candidate fits fully inside the supplied bounds
on an axis, the solve is not an error — as long as the two rule lists
offer valid-axis rules on complementary axes, it still reports success
(the unfit candidates are kept as `GOOD` entries), returning the best
available candidate clamped into bounds; the offset records the clamp
displacement, which can be zero when the ideal coordinate coincides with
the clamped one. -/
theorem C7_amended_unfit_axis_still_succeeds (params : GdkAttachParams)
    (width height : Int) (b : GdkRectangle) (a : Bool)
    (pr sr : GdkAttachRule)
    (hrect : params.has_attach_rect = true)
    (hpr : pr ∈ params.primary_rules) (hpa : axOf pr.axis = some a)
    (hsr : sr ∈ params.secondary_rules) (hsa : axOf sr.axis = some (!a))
    (_hnofit : ∀ q ∈ params.primary_rules ++ params.secondary_rules,
      axOf q.axis = some a →
        (is_satisfiable q params width height (some b)).1 = false) :
    (gdk_attach_params_choose_position params width height
      (some b)).isSome = true := by
  have hP := scanRules_covers params width height (some b) a
    params.primary_rules initScan (Or.inl ⟨pr, hpr, hpa⟩)
  have hS := scanRules_covers params width height (some b) (!a)
    params.secondary_rules initScan (Or.inl ⟨sr, hsr, hsa⟩)
  have hsp : (searchPhase params width height (some b)).isSome = true := by
    unfold searchPhase
    rw [if_neg (by simp [hrect])]
    rcases hP with h1 | h1 <;> rcases hS with h2 | h2
    · exact searchHit_isSome _ _ false false a h1 h2
    · exact searchHit_isSome _ _ false true a h1 h2
    · exact searchHit_isSome _ _ true false a h1 h2
    · exact searchHit_isSome _ _ true true a h1 h2
  unfold gdk_attach_params_choose_position
  cases hv : searchPhase params width height (some b) with
  | none => rw [hv] at hsp; cases hsp
  | some hit => rfl

/-- Witness for the amended C7 at the concrete unfit-axis solve. -/
theorem C7_witness :
    (gdk_attach_params_choose_position paramsEdge 500 10
      (some boundsA)).isSome = true := by
  exact C7_amended_unfit_axis_still_succeeds paramsEdge 500 10 boundsA
    false ruleXMinMin ruleYMinMin (by decide) (by decide) (by decide)
    (by decide) (by decide) (by decide)

/-- C5 counterexample: a params whose sole primary rule has invalid axis
bits produces no position at all (`FALSE`), even though the secondary list
is satisfiable on both axes — the malformed rule is not recovered by a
Center substitution: substituting either valid axis (keeping the Center
components) would make the solve succeed. -/
theorem C5_counterexample :
    ruleBadAxis.axis = AttachAxis.invalid ∧
    ruleBadAxis.rect = RectComp.mid ∧ ruleBadAxis.window = WindowComp.mid ∧
    gdk_attach_params_choose_position paramsBadAxis 50 50 (some boundsA) =
      none ∧
    (gdk_attach_params_choose_position
      { paramsBadAxis with
        primary_rules := [⟨AttachAxis.x, RectComp.mid, WindowComp.mid⟩] }
      50 50 (some boundsA)).isSome = true ∧
    (gdk_attach_params_choose_position
      { paramsBadAxis with
        primary_rules := [⟨AttachAxis.y, RectComp.mid, WindowComp.mid⟩] }
      50 50 (some boundsA)).isSome = true := by
  refine ⟨rfl, rfl, rfl, by decide, by decide, by decide⟩

/-- `is_satisfiable` never reads the rule arrays of the params. -/
theorem is_satisfiable_rules_irrel (rule : GdkAttachRule) (o1 o2 : Int)
    (har : Bool) (ar : GdkRectangle) (am wm wp : GdkBorder) (ox oy : Int)
    (prs srs prs' srs' : List GdkAttachRule) (cb : Bool) (ud : Option Nat)
    (dn : Bool) (width height : Int) (bounds : Option GdkRectangle) :
    is_satisfiable rule ⟨o1, o2, har, ar, am, wm, wp, ox, oy, prs, srs,
        cb, ud, dn⟩ width height bounds =
      is_satisfiable rule ⟨o1, o2, har, ar, am, wm, wp, ox, oy, prs', srs',
        cb, ud, dn⟩ width height bounds := rfl

/-- `scanStep` never reads the rule arrays of the params. -/
theorem scanStep_rules_irrel (o1 o2 : Int) (har : Bool) (ar : GdkRectangle)
    (am wm wp : GdkBorder) (ox oy : Int)
    (prs srs prs' srs' : List GdkAttachRule) (cb : Bool) (ud : Option Nat)
    (dn : Bool) (width height : Int) (bounds : Option GdkRectangle)
    (st : ScanState) (r : GdkAttachRule) (a : Bool) :
    scanStep ⟨o1, o2, har, ar, am, wm, wp, ox, oy, prs, srs, cb, ud, dn⟩
        width height bounds st r a =
      scanStep ⟨o1, o2, har, ar, am, wm, wp, ox, oy, prs', srs', cb, ud, dn⟩
        width height bounds st r a := by
  unfold scanStep
  rw [is_satisfiable_rules_irrel r o1 o2 har ar am wm wp ox oy prs srs prs'
    srs' cb ud dn width height bounds]

/-- The rule scan never reads the rule arrays of the params argument. -/
theorem scanRules_rules_irrel (o1 o2 : Int) (har : Bool)
    (ar : GdkRectangle) (am wm wp : GdkBorder) (ox oy : Int)
    (prs srs prs' srs' : List GdkAttachRule) (cb : Bool) (ud : Option Nat)
    (dn : Bool) (width height : Int) (bounds : Option GdkRectangle) :
    ∀ (l : List GdkAttachRule) (st : ScanState),
      scanRules ⟨o1, o2, har, ar, am, wm, wp, ox, oy, prs, srs, cb, ud, dn⟩
          width height bounds l st =
        scanRules ⟨o1, o2, har, ar, am, wm, wp, ox, oy, prs', srs', cb, ud,
          dn⟩ width height bounds l st := by
  intro l
  induction l with
  | nil => intro st; rfl
  | cons r rest ih =>
      intro st
      simp only [scanRules]
      cases hax : axOf r.axis with
      | none => exact ih st
      | some a =>
          dsimp only
          rw [scanStep_rules_irrel o1 o2 har ar am wm wp ox oy prs srs prs'
            srs' cb ud dn width height bounds st r a]
          cases hstep : scanStep ⟨o1, o2, har, ar, am, wm, wp, ox, oy, prs',
              srs', cb, ud, dn⟩ width height bounds st r a with
          | mk st' brk =>
              cases brk with
              | false => dsimp only; exact ih st'
              | true => rfl

/-- A rule with invalid axis bits is skipped by the scan: the scan of any
list containing it equals the scan of the list with it removed. -/
theorem scanRules_skip_invalid (params : GdkAttachParams)
    (width height : Int) (bounds : Option GdkRectangle)
    (bad : GdkAttachRule) (hbad : axOf bad.axis = none) :
    ∀ (l1 l2 : List GdkAttachRule) (st : ScanState),
      scanRules params width height bounds (l1 ++ bad :: l2) st =
        scanRules params width height bounds (l1 ++ l2) st := by
  intro l1
  induction l1 with
  | nil =>
      intro l2 st
      simp only [List.nil_append, scanRules, hbad]
  | cons r l1' ih =>
      intro l2 st
      simp only [List.cons_append, scanRules]
      cases hax : axOf r.axis with
      | none => exact ih l2 st
      | some a =>
          dsimp only
          cases hstep : scanStep params width height bounds st r a with
          | mk st' brk =>
              cases brk with
              | false => dsimp only; exact ih l2 st'
              | true => rfl

/-- C5 as amended: a rule whose axis component bits lie outside the
defined set is skipped with a non-fatal diagnostic (`g_warning` +
`continue`) — it is not replaced by a Center-substituted rule — and the
solve proceeds with the remaining rules: removing the malformed rule from
either list leaves the result of `gdk_attach_params_choose_position`
unchanged.  The solve is never aborted by a malformed rule (though it
returns `FALSE` if no valid pairing remains). -/
theorem C5_amended_invalid_axis_skipped (params : GdkAttachParams)
    (width height : Int) (bounds : Option GdkRectangle)
    (bad : GdkAttachRule) (l1 l2 m1 m2 : List GdkAttachRule)
    (hbad : bad.axis = AttachAxis.invalid) :
    gdk_attach_params_choose_position
        { params with primary_rules := l1 ++ bad :: l2 } width height
        bounds =
      gdk_attach_params_choose_position
        { params with primary_rules := l1 ++ l2 } width height bounds ∧
    gdk_attach_params_choose_position
        { params with secondary_rules := m1 ++ bad :: m2 } width height
        bounds =
      gdk_attach_params_choose_position
        { params with secondary_rules := m1 ++ m2 } width height bounds := by
  have haxbad : axOf bad.axis = none := by rw [hbad]; rfl
  obtain ⟨o1, o2, har, ar, am, wm, wp, ox, oy, prs, srs, cb, ud, dn⟩ :=
    params
  dsimp only
  constructor
  · have hsp :
        searchPhase ⟨o1, o2, har, ar, am, wm, wp, ox, oy, l1 ++ bad :: l2,
            srs, cb, ud, dn⟩ width height bounds =
          searchPhase ⟨o1, o2, har, ar, am, wm, wp, ox, oy, l1 ++ l2, srs,
            cb, ud, dn⟩ width height bounds := by
      unfold searchPhase
      dsimp only
      rw [scanRules_skip_invalid _ width height bounds bad haxbad l1 l2
        initScan]
      rw [scanRules_rules_irrel o1 o2 har ar am wm wp ox oy
        (l1 ++ bad :: l2) srs (l1 ++ l2) srs cb ud dn width height bounds
        (l1 ++ l2) initScan]
      rw [scanRules_rules_irrel o1 o2 har ar am wm wp ox oy
        (l1 ++ bad :: l2) srs (l1 ++ l2) srs cb ud dn width height bounds
        srs initScan]
    unfold gdk_attach_params_choose_position
    rw [hsp]
  · have hsp :
        searchPhase ⟨o1, o2, har, ar, am, wm, wp, ox, oy, prs,
            m1 ++ bad :: m2, cb, ud, dn⟩ width height bounds =
          searchPhase ⟨o1, o2, har, ar, am, wm, wp, ox, oy, prs, m1 ++ m2,
            cb, ud, dn⟩ width height bounds := by
      unfold searchPhase
      dsimp only
      rw [scanRules_skip_invalid _ width height bounds bad haxbad m1 m2
        initScan]
      rw [scanRules_rules_irrel o1 o2 har ar am wm wp ox oy
        prs (m1 ++ bad :: m2) prs (m1 ++ m2) cb ud dn width height bounds
        (m1 ++ m2) initScan]
      rw [scanRules_rules_irrel o1 o2 har ar am wm wp ox oy
        prs (m1 ++ bad :: m2) prs (m1 ++ m2) cb ud dn width height bounds
        prs initScan]
    unfold gdk_attach_params_choose_position
    rw [hsp]

/-- Witness for the amended C5: removing the invalid-axis rule from the
concrete primary list leaves the solve unchanged. -/
theorem C5_witness :
    gdk_attach_params_choose_position
        { paramsBadAxis with primary_rules := [] ++ ruleBadAxis :: [] }
        50 50 (some boundsA) =
      gdk_attach_params_choose_position
        { paramsBadAxis with primary_rules := [] ++ [] } 50 50
        (some boundsA) := by
  exact (C5_amended_invalid_axis_skipped paramsBadAxis 50 50 (some boundsA)
    ruleBadAxis [] [] [] [] rfl).1
